import Mathlib

/-!
Shallow embedding of tic_tac_toe_backend/src/api/main.py.

The program is a FastAPI application with two routes:
a health check GET / returning a fixed payload, and POST /assistant, which
validates a pydantic AssistantRequest, calls the OpenAI chat-completions
provider with fixed generation parameters, strips the first choice text, and
maps every exception raised inside the try block to HTTP 502 with a fixed
detail string.  Startup raises a RuntimeError when OPENAI_API_KEY is unset or
empty.  The provider is modelled as an oracle from the parameters the code
passes to an outcome (a response with a list of choices, or an exception);
handleRequest also returns the list of provider invocations it performed, so
that the absence of a provider call is expressible.
-/

/-- JSON values that can populate a field of a request body. -/
inductive JsonValue where
  | str (s : String)
  | num (n : Int)
  | boolean (b : Bool)
  | null
deriving DecidableEq

/-- Body of a POST /assistant request: the message field may be absent
(other fields are ignored by the pydantic model). -/
structure RequestBody where
  message : Option JsonValue
deriving DecidableEq

/-- Pydantic model AssistantRequest: message is a required str field. -/
structure AssistantRequest where
  message : String
deriving DecidableEq

/-- Pydantic model AssistantResponse: answer is a required str field. -/
structure AssistantResponse where
  answer : String
deriving DecidableEq

/-- The pydantic validation boundary for AssistantRequest: the field must be
present and hold a JSON string (pydantic does not coerce numbers, booleans or
null to str, and the model declares no non-empty constraint). -/
def validateAssistantRequest (b : RequestBody) : Except String AssistantRequest :=
  match b.message with
  | some (.str s) => Except.ok ⟨s⟩
  | some _ => Except.error "Input should be a valid string"
  | none => Except.error "Field required"

/-- Whether the body carries a message field holding a JSON string. -/
def isStringMessage (b : RequestBody) : Bool :=
  match b.message with
  | some (.str _) => true
  | _ => false

/-- One entry of the messages list passed to the provider. -/
structure ChatMessage where
  role : String
  content : String
deriving DecidableEq

/-- The keyword arguments of openai_client.chat.completions.create. -/
structure ProviderParams where
  model : String
  messages : List ChatMessage
  max_tokens : Nat
  temperature : ℚ
deriving DecidableEq

/-- The system-role instruction, verbatim from main.py. -/
def systemPrompt : String :=
  "You are the helpful AI assistant for an online Tic Tac Toe game. Answer rules, strategies, and give helpful, friendly advice for the game."

/-- The parameters main.py passes to chat.completions.create for a request
whose validated message is msg. -/
def assistantParams (msg : String) : ProviderParams :=
  { model := "gpt-3.5-turbo"
    messages := [⟨"system", systemPrompt⟩, ⟨"user", msg⟩]
    max_tokens := 256
    temperature := 0.7 }

/-- choice.message.content of a completion choice: a string or None. -/
inductive ContentVal where
  | str (s : String)
  | null
deriving DecidableEq

/-- One completion choice; content stands for choice.message.content. -/
structure Choice where
  content : ContentVal
deriving DecidableEq

/-- The provider response object: a list of choices. -/
structure ProviderResponse where
  choices : List Choice
deriving DecidableEq

/-- Outcome of the provider call: a response object, or an exception carrying
its raw text (network error, auth failure, rate limit, timeout, ...). -/
inductive ProviderOutcome where
  | ok (r : ProviderResponse)
  | exn (e : String)
deriving DecidableEq

/-- Whitespace characters removed by Python str.strip: exactly those for
which str.isspace holds, namely the ASCII whitespace range, the separator
controls \x1c to \x1f, NEL, NBSP, and the Unicode space, line and paragraph
separators. -/
def isPyWhitespace (c : Char) : Bool :=
  let n := c.toNat
  n = 0x20 || (0x09 ≤ n && n ≤ 0x0d) || (0x1c ≤ n && n ≤ 0x1f) ||
  n = 0x85 || n = 0xa0 || n = 0x1680 ||
  (0x2000 ≤ n && n ≤ 0x200a) ||
  n = 0x2028 || n = 0x2029 || n = 0x202f || n = 0x205f || n = 0x3000

/-- Python str.strip: remove leading and trailing whitespace. -/
def pyStrip (s : String) : String :=
  ⟨((s.data.dropWhile isPyWhitespace).reverse.dropWhile isPyWhitespace).reverse⟩

/-- The fixed detail string of the HTTPException raised in the except branch. -/
def upstreamErrorDetail : String :=
  "Failed to get a response from the assistant. Please try again later."

/-- An HTTP response of this application: the health payload, the assistant
success payload, or an error status with a detail string. -/
inductive HttpResponse where
  | healthOk (message : String)
  | assistantOk (answer : String)
  | httpError (status : Nat) (detail : String)
deriving DecidableEq

/-- The try/except body of ask_assistant after the provider call returned:
response.choices gets indexed at 0 (an empty list raises IndexError, caught),
content.strip() is taken (None raises AttributeError, caught), and any
exception from the call itself lands in the except branch.  Every caught
exception becomes HTTP 502 with the fixed detail. -/
def handleOutcome : ProviderOutcome → HttpResponse
  | .exn _ => .httpError 502 upstreamErrorDetail
  | .ok r =>
    match r.choices with
    | [] => .httpError 502 upstreamErrorDetail
    | c :: _ =>
      match c.content with
      | .null => .httpError 502 upstreamErrorDetail
      | .str s => .assistantOk (pyStrip s)

/-- The two routes of the application. -/
inductive HttpRequest where
  | getRoot
  | postAssistant (body : RequestBody)

/-- One request/response round trip, given the provider as an oracle.  The
second component records every provider invocation made while handling the
request. -/
def handleRequest (provider : ProviderParams → ProviderOutcome) :
    HttpRequest → HttpResponse × List ProviderParams
  | .getRoot => (.healthOk "Healthy", [])
  | .postAssistant b =>
    match validateAssistantRequest b with
    | .error msg => (.httpError 422 msg, [])
    | .ok req =>
      let params := assistantParams req.message
      (handleOutcome (provider params), [params])

/-- The RuntimeError message raised at import time when the key is missing. -/
def apiKeyErrorMsg : String :=
  "OPENAI_API_KEY not set in environment. Please add it to your .env file."

/-- The started application; it exists only once the key check passed. -/
structure App where
  apiKey : String

/-- Module initialisation: os.getenv may return the key or None, and a falsy
value (None or the empty string) raises RuntimeError before the app serves. -/
def buildApp (envKey : Option String) : Except String App :=
  match envKey with
  | none => Except.error apiKeyErrorMsg
  | some k => if k.isEmpty then Except.error apiKeyErrorMsg else Except.ok ⟨k⟩

/-- Serving a request requires a started application: a failed startup makes
every route unreachable. -/
def serve (st : Except String App) (provider : ProviderParams → ProviderOutcome)
    (r : HttpRequest) : Option (HttpResponse × List ProviderParams) :=
  match st with
  | .error _ => none
  | .ok _ => some (handleRequest provider r)

/-- Boolean test that the first list is an initial segment of the second. -/
def strPrefixOf : List Char → List Char → Bool
  | [], _ => true
  | _ :: _, [] => false
  | a :: as, b :: bs => a = b && strPrefixOf as bs

/-- Boolean test that the first list occurs contiguously inside the second. -/
def strSubstrOf : List Char → List Char → Bool
  | n, [] => strPrefixOf n []
  | n, b :: t => strPrefixOf n (b :: t) || strSubstrOf n t

/-- The string needle occurs contiguously inside hay. -/
def containsSubstr (needle hay : String) : Prop :=
  strSubstrOf needle.data hay.data = true

/-- The detail string of an error response, if the response is an error. -/
def errorDetailOf : HttpResponse → Option String
  | .httpError _ d => some d
  | _ => none

/-- Claim C1: for a valid request whose message is a string, when the provider
call succeeds and the first completion choice carries text content, the
endpoint returns an assistant success whose answer is that text with leading
and trailing whitespace removed, after exactly one provider invocation. -/
theorem assistant_success_returns_stripped_first_choice
    (provider : ProviderParams → ProviderOutcome) (m s : String) (rest : List Choice)
    (h : provider (assistantParams m) = .ok ⟨⟨.str s⟩ :: rest⟩) :
    handleRequest provider (.postAssistant ⟨some (.str m)⟩)
      = (.assistantOk (pyStrip s), [assistantParams m]) := by
  show (handleOutcome (provider (assistantParams m)), [assistantParams m]) = _
  rw [h]
  rfl

/-- Witness for C1 at a concrete provider and message; the content carries
both ASCII spaces and no-break spaces around the text. -/
theorem assistant_success_returns_stripped_first_choice_witness :
    handleRequest (fun _ => .ok ⟨[⟨.str "  hi there  "⟩]⟩)
        (.postAssistant ⟨some (.str "q")⟩)
      = (.assistantOk "hi there", [assistantParams "q"]) := by
  rw [assistant_success_returns_stripped_first_choice
        (fun _ => .ok ⟨[⟨.str "  hi there  "⟩]⟩) "q" "  hi there  " [] rfl]
  have h1 : pyStrip "  hi there  " = "hi there" := by decide
  rw [h1]

/-- Claim C2: the assistant handler has exactly two outcomes: an assistant
success, or HTTP 502 with the fixed detail string; in particular a raised
exception and an empty choice list both land on the 502 outcome. -/
theorem assistant_handler_two_outcomes :
    (∀ o : ProviderOutcome,
        (∃ a, handleOutcome o = .assistantOk a) ∨
          handleOutcome o = .httpError 502 upstreamErrorDetail)
    ∧ (∀ e, handleOutcome (.exn e) = .httpError 502 upstreamErrorDetail)
    ∧ handleOutcome (.ok ⟨[]⟩) = .httpError 502 upstreamErrorDetail := by
  refine ⟨?_, fun _ => rfl, rfl⟩
  intro o
  match o with
  | .exn _ => exact Or.inr rfl
  | .ok ⟨[]⟩ => exact Or.inr rfl
  | .ok ⟨⟨.null⟩ :: _⟩ => exact Or.inr rfl
  | .ok ⟨⟨.str s⟩ :: _⟩ => exact Or.inl ⟨pyStrip s, rfl⟩

/-- Claim C3: on a provider exception the response is the fixed 502 detail,
identically for every exception text, and a string occurs inside the emitted
detail only if it already occurs inside the fixed constant: the raw error
text and the configured key are never exposed. -/
theorem assistant_failure_detail_constant_no_leak (e : String) :
    handleOutcome (.exn e) = .httpError 502 upstreamErrorDetail
    ∧ (∀ e2 : String, handleOutcome (.exn e2) = handleOutcome (.exn e))
    ∧ (∀ s d : String, errorDetailOf (handleOutcome (.exn e)) = some d →
        containsSubstr s d → containsSubstr s upstreamErrorDetail) := by
  refine ⟨rfl, fun _ => rfl, ?_⟩
  intro s d hd hs
  have hde : upstreamErrorDetail = d := by
    simpa [handleOutcome, errorDetailOf] using hd
  rwa [hde]

/-- Witness for C3: a secret exception text is not contained in the emitted
502 detail. -/
theorem assistant_failure_detail_constant_no_leak_witness :
    ¬ containsSubstr "sk-SECRETKEY" upstreamErrorDetail
    ∧ ∀ d, errorDetailOf (handleOutcome (.exn "boom sk-SECRETKEY traceback")) = some d →
        containsSubstr "sk-SECRETKEY" d → containsSubstr "sk-SECRETKEY" upstreamErrorDetail :=
  ⟨by unfold containsSubstr; decide, fun d hd hs =>
    (assistant_failure_detail_constant_no_leak "boom sk-SECRETKEY traceback").2.2
      "sk-SECRETKEY" d hd hs⟩

/-- Claim C4 counterexample: a request whose message is the empty string is
not rejected at the schema boundary; the provider is invoked and the handler
returns a success, contradicting the claim that empty messages are rejected
with a client error before any provider call. -/
theorem empty_message_not_rejected :
    handleRequest (fun _ => .ok ⟨[⟨.str "ans"⟩]⟩) (.postAssistant ⟨some (.str "")⟩)
      = (.assistantOk "ans", [assistantParams ""]) := by
  have h1 : pyStrip "ans" = "ans" := by decide
  show (handleOutcome (.ok ⟨[⟨.str "ans"⟩]⟩), [assistantParams ""]) = _
  show (HttpResponse.assistantOk (pyStrip "ans"), [assistantParams ""]) = _
  rw [h1]

/-- Claim C4 as amended: the schema boundary enforces presence and string
type only: a body whose message is absent or not a string fails validation,
and any string message, the empty string included, validates successfully. -/
theorem schema_boundary_enforces_presence_and_type (b : RequestBody) :
    (isStringMessage b = false → ∃ msg, validateAssistantRequest b = .error msg)
    ∧ (∀ s, b.message = some (.str s) → validateAssistantRequest b = .ok ⟨s⟩) := by
  constructor
  · intro h
    match hb : b.message with
    | some (.str s) => simp [isStringMessage, hb] at h
    | some (.num n) =>
      exact ⟨"Input should be a valid string", by simp [validateAssistantRequest, hb]⟩
    | some (.boolean v) =>
      exact ⟨"Input should be a valid string", by simp [validateAssistantRequest, hb]⟩
    | some .null =>
      exact ⟨"Input should be a valid string", by simp [validateAssistantRequest, hb]⟩
    | none =>
      exact ⟨"Field required", by simp [validateAssistantRequest, hb]⟩
  · intro s hs
    simp [validateAssistantRequest, hs]

/-- Witness for the amended C4 at concrete bodies. -/
theorem schema_boundary_enforces_presence_and_type_witness :
    (∃ msg, validateAssistantRequest ⟨none⟩ = .error msg)
    ∧ validateAssistantRequest ⟨some (.str "")⟩ = .ok ⟨""⟩ :=
  ⟨(schema_boundary_enforces_presence_and_type ⟨none⟩).1 rfl,
   (schema_boundary_enforces_presence_and_type ⟨some (.str "")⟩).2 "" rfl⟩

/-- Claim C5: a request whose message field is missing or not a string gets a
422 client error and the provider is never invoked. -/
theorem invalid_message_rejected_without_provider_call
    (b : RequestBody) (h : isStringMessage b = false)
    (provider : ProviderParams → ProviderOutcome) :
    ∃ d, handleRequest provider (.postAssistant b) = (.httpError 422 d, []) := by
  match hb : b.message with
  | some (.str s) => simp [isStringMessage, hb] at h
  | some (.num n) =>
    exact ⟨"Input should be a valid string",
      by simp [handleRequest, validateAssistantRequest, hb]⟩
  | some (.boolean v) =>
    exact ⟨"Input should be a valid string",
      by simp [handleRequest, validateAssistantRequest, hb]⟩
  | some .null =>
    exact ⟨"Input should be a valid string",
      by simp [handleRequest, validateAssistantRequest, hb]⟩
  | none =>
    exact ⟨"Field required",
      by simp [handleRequest, validateAssistantRequest, hb]⟩

/-- Witness for C5 at a numeric message and a concrete provider. -/
theorem invalid_message_rejected_without_provider_call_witness :
    ∃ d, handleRequest (fun _ => .exn "net down") (.postAssistant ⟨some (.num 3)⟩)
      = (.httpError 422 d, []) :=
  invalid_message_rejected_without_provider_call ⟨some (.num 3)⟩ rfl
    (fun _ => .exn "net down")

/-- Claim C6: an absent or empty OPENAI_API_KEY fails module initialisation
with the RuntimeError message, and no route of the app is reachable. -/
theorem missing_api_key_fails_startup (envKey : Option String)
    (h : envKey = none ∨ envKey = some "") :
    buildApp envKey = .error apiKeyErrorMsg
    ∧ ∀ (provider : ProviderParams → ProviderOutcome) (r : HttpRequest),
        serve (buildApp envKey) provider r = none := by
  rcases h with h | h <;> subst h <;> exact ⟨rfl, fun _ _ => rfl⟩

/-- Witness for C6 with the key absent. -/
theorem missing_api_key_fails_startup_witness :
    buildApp none = .error apiKeyErrorMsg
    ∧ ∀ (provider : ProviderParams → ProviderOutcome) (r : HttpRequest),
        serve (buildApp none) provider r = none :=
  missing_api_key_fails_startup none (Or.inl rfl)

/-- Claim C7: the health route returns the fixed Healthy payload and performs
no provider invocation, for every provider oracle. -/
theorem health_check_fixed_payload_no_provider_call
    (provider : ProviderParams → ProviderOutcome) :
    handleRequest provider .getRoot = (.healthOk "Healthy", []) := rfl

/-- Claim C8: handling a valid request performs exactly one provider
invocation, whose parameters are the fixed model, max_tokens 256, temperature
0.7, and the two-message conversation of the fixed system prompt followed by
the user message verbatim; the fixed parameters do not vary with the
message. -/
theorem assistant_provider_params_fixed
    (provider : ProviderParams → ProviderOutcome) (m : String) :
    (handleRequest provider (.postAssistant ⟨some (.str m)⟩)).2 = [assistantParams m]
    ∧ (assistantParams m).model = "gpt-3.5-turbo"
    ∧ (assistantParams m).max_tokens = 256
    ∧ (assistantParams m).temperature = 0.7
    ∧ (assistantParams m).messages = [⟨"system", systemPrompt⟩, ⟨"user", m⟩]
    ∧ ∀ m2 : String,
        (assistantParams m2).model = (assistantParams m).model
        ∧ (assistantParams m2).max_tokens = (assistantParams m).max_tokens
        ∧ (assistantParams m2).temperature = (assistantParams m).temperature :=
  ⟨rfl, rfl, rfl, rfl, rfl, fun _ => ⟨rfl, rfl, rfl⟩⟩

/-- Claim C9: when the provider call succeeds but the first choice content is
None, stripping raises inside the try block and the request resolves to the
502 upstream error, after the one provider invocation. -/
theorem null_content_resolves_to_502
    (provider : ProviderParams → ProviderOutcome) (m : String) (rest : List Choice)
    (h : provider (assistantParams m) = .ok ⟨⟨.null⟩ :: rest⟩) :
    handleRequest provider (.postAssistant ⟨some (.str m)⟩)
      = (.httpError 502 upstreamErrorDetail, [assistantParams m]) := by
  show (handleOutcome (provider (assistantParams m)), [assistantParams m]) = _
  rw [h]
  rfl

/-- Witness for C9 at a concrete provider returning a None content. -/
theorem null_content_resolves_to_502_witness :
    handleRequest (fun _ => .ok ⟨[⟨.null⟩]⟩) (.postAssistant ⟨some (.str "q")⟩)
      = (.httpError 502 upstreamErrorDetail, [assistantParams "q"]) :=
  null_content_resolves_to_502 (fun _ => .ok ⟨[⟨.null⟩]⟩) "q" [] rfl

/-- Stripping a list of whitespace characters leaves nothing. -/
theorem dropWhile_all_ws (l : List Char) (h : l.all isPyWhitespace = true) :
    l.dropWhile isPyWhitespace = [] := by
  induction l with
  | nil => rfl
  | cons a t ih =>
    simp only [List.all_cons, Bool.and_eq_true] at h
    simp [List.dropWhile, h.1, ih h.2]

/-- Python str.strip of an all-whitespace string is the empty string. -/
theorem pyStrip_all_ws (s : String) (h : s.data.all isPyWhitespace = true) :
    pyStrip s = "" := by
  unfold pyStrip
  rw [dropWhile_all_ws s.data h]
  rfl

/-- Claim C10: when the first choice content is a string made only of
whitespace (the empty string included), the endpoint still returns a success
whose answer is the empty string; no error is produced. -/
theorem whitespace_content_yields_empty_answer
    (provider : ProviderParams → ProviderOutcome) (m s : String) (rest : List Choice)
    (hws : s.data.all isPyWhitespace = true)
    (h : provider (assistantParams m) = .ok ⟨⟨.str s⟩ :: rest⟩) :
    handleRequest provider (.postAssistant ⟨some (.str m)⟩)
      = (.assistantOk "", [assistantParams m]) := by
  show (handleOutcome (provider (assistantParams m)), [assistantParams m]) = _
  rw [h]
  show (HttpResponse.assistantOk (pyStrip s), [assistantParams m]) = _
  rw [pyStrip_all_ws s hws]

/-- Witness for C10 at a content of tab, spaces and a no-break space. -/
theorem whitespace_content_yields_empty_answer_witness :
    handleRequest (fun _ => .ok ⟨[⟨.str " \t "⟩]⟩) (.postAssistant ⟨some (.str "q")⟩)
      = (.assistantOk "", [assistantParams "q"]) :=
  whitespace_content_yields_empty_answer (fun _ => .ok ⟨[⟨.str " \t "⟩]⟩)
    "q" " \t " [] (by decide) rfl
